import Mathlib

/-!
Verification development for the real-time event distribution subsystem of
the polygon-editor backend: the envelope model (`pdfmap_project/events/envelope.py`),
group resolution (`groups.py`), permission filtering (`permissions.py`),
the publish bridge with retry (`bridge.py`), the unfiltered publisher
(`publisher.py`), and the sequence-gated job-status projector (`notifier.py`).
Every definition is a shallow embedding of the corresponding Python function;
Python runtime behaviour (dict truthiness, `or`-chains, `isinstance` numeric
checks, exceptions from `.strip()` on non-strings) is modelled explicitly.
-/

set_option linter.unusedVariables false

namespace PolyEd

/-! ## JSON-like metadata values

Python event payloads are `Dict[str, Any]` holding JSON-serializable scalars.
The parts of the code under verification only ever read strings, ints and
bools out of payloads, so those constructors (plus `null` for `None`) suffice.
-/

inductive JVal where
  | s (v : String)
  | i (v : Int)
  | b (v : Bool)
  | null
  deriving DecidableEq, Repr

/-- Python truthiness of a payload value (`bool(v)`). -/
def JVal.truthy : JVal → Bool
  | .s v => v ≠ ""
  | .i v => v ≠ 0
  | .b v => v
  | .null => false

/-- A Python dict with string keys, modelled as an association list with
unique keys maintained by `metaSet`. -/
abbrev Meta := List (String × JVal)

/-- `d.get(k)`: `none` models Python `None` for a missing key. -/
def metaGet (m : Meta) (k : String) : Option JVal :=
  (m.find? (fun p => p.1 = k)).map (fun p => p.2)

/-- `d[k] = v`: overwrite in place if the key exists, else append
(Python dicts preserve insertion order). -/
def metaSet (m : Meta) (k : String) (v : JVal) : Meta :=
  if m.any (fun p => p.1 = k) then
    m.map (fun p => if p.1 = k then (k, v) else p)
  else
    m ++ [(k, v)]

/-- `base.update(overlay)` for Python dicts. -/
def metaUpdate (m overlay : Meta) : Meta :=
  overlay.foldl (fun acc p => metaSet acc p.1 p.2) m

/-- Python `a or b` over two expressions that may be `None` (here `Option JVal`):
returns the first operand when it is truthy, otherwise the second operand. -/
def pyOr (a b : Option JVal) : Option JVal :=
  match a with
  | some v => if v.truthy then some v else b
  | none => b

/-- Python `x or default` for an optional string argument: the default is used
when the argument is `None` or an empty (falsy) string. -/
def pyStrOr (o : Option String) (d : String) : String :=
  match o with
  | some s => if s = "" then d else s
  | none => d

/-- Digits of a decimal numeral; `none` when the list is empty or contains a
non-digit character. -/
def digitsToNat? : List Char → Option Nat
  | [] => none
  | cs => go cs 0
where
  go : List Char → Nat → Option Nat
    | [], acc => some acc
    | c :: rest, acc =>
      if c.isDigit then go rest (acc * 10 + (c.toNat - '0'.toNat)) else none

/-- Python `int(s)` on a decimal string (an optional minus sign followed by
digits), `none` for `ValueError`. -/
def pyInt? (s : String) : Option Int :=
  match s.data with
  | '-' :: rest => (digitsToNat? rest).map (fun n => -(n : Int))
  | cs => (digitsToNat? cs).map (fun n => (n : Int))

/-- Python `str.strip()`: drop leading and trailing whitespace. -/
def pyStrip (s : String) : String :=
  ⟨((s.data.dropWhile Char.isWhitespace).reverse.dropWhile Char.isWhitespace).reverse⟩

/-! ## envelope.py -/

/-- `EventType(str, Enum)` from `envelope.py`. -/
inductive EventType where
  | TASK_QUEUED
  | TASK_STARTED
  | TASK_PROGRESS
  | TASK_COMPLETED
  | TASK_FAILED
  | NOTIFICATION
  deriving DecidableEq, Repr

/-- The `.value` string tag of an `EventType` member. -/
def EventType.value : EventType → String
  | .TASK_QUEUED => "TASK_QUEUED"
  | .TASK_STARTED => "TASK_STARTED"
  | .TASK_PROGRESS => "TASK_PROGRESS"
  | .TASK_COMPLETED => "TASK_COMPLETED"
  | .TASK_FAILED => "TASK_FAILED"
  | .NOTIFICATION => "NOTIFICATION"

/-- `EventType(tag)`: parse a string tag back to the enum member;
`none` models the `ValueError` raised on an unknown tag. -/
def EventType.ofTag (t : String) : Option EventType :=
  if t = "TASK_QUEUED" then some .TASK_QUEUED
  else if t = "TASK_STARTED" then some .TASK_STARTED
  else if t = "TASK_PROGRESS" then some .TASK_PROGRESS
  else if t = "TASK_COMPLETED" then some .TASK_COMPLETED
  else if t = "TASK_FAILED" then some .TASK_FAILED
  else if t = "NOTIFICATION" then some .NOTIFICATION
  else none

/-- `JobType(str, Enum)` from `envelope.py`. -/
inductive JobType where
  | POLYGON_EXTRACTION
  | POLYGON_ANALYSIS
  | DATA_PROCESSING
  | PDF_EXTRACTION
  | EXPORT
  | SYNC
  | IMPORT
  deriving DecidableEq, Repr

/-- The `.value` string tag of a `JobType` member. -/
def JobType.value : JobType → String
  | .POLYGON_EXTRACTION => "polygon_extraction"
  | .POLYGON_ANALYSIS => "polygon_analysis"
  | .DATA_PROCESSING => "data_processing"
  | .PDF_EXTRACTION => "pdf_extraction"
  | .EXPORT => "export"
  | .SYNC => "sync"
  | .IMPORT => "import"

/-- `JobType(tag)`: parse a string tag back to the enum member;
`none` models the `ValueError` raised on an unknown tag. -/
def JobType.ofTag (t : String) : Option JobType :=
  if t = "polygon_extraction" then some .POLYGON_EXTRACTION
  else if t = "polygon_analysis" then some .POLYGON_ANALYSIS
  else if t = "data_processing" then some .DATA_PROCESSING
  else if t = "pdf_extraction" then some .PDF_EXTRACTION
  else if t = "export" then some .EXPORT
  else if t = "sync" then some .SYNC
  else if t = "import" then some .IMPORT
  else none

/-- The `EventEnvelope` dataclass. `ts` is wall-clock milliseconds assigned at
construction; in this embedding the clock reading is an explicit argument of
the constructing functions. -/
structure EventEnvelope where
  event_type : EventType
  task_id : String
  job_type : JobType
  project_id : String
  page_id : Option String
  user_id : Int
  seq : Int
  ts : Int
  detail_url : String
  meta : Meta
  deriving DecidableEq, Repr

/-- `EventEnvelope(...)` followed by `__post_init__`, which replaces an empty
`detail_url` by the default deep link. -/
def mkEnvelope (event_type : EventType) (task_id : String) (job_type : JobType)
    (project_id : String) (page_id : Option String) (user_id : Int)
    (seq : Int) (ts : Int) (detail_url : String) (meta : Meta) : EventEnvelope :=
  { event_type := event_type, task_id := task_id, job_type := job_type,
    project_id := project_id, page_id := page_id, user_id := user_id,
    seq := seq, ts := ts,
    detail_url := if detail_url = "" then "/api/jobs/" ++ task_id else detail_url,
    meta := meta }

/-- The string-keyed wire map produced by `EventEnvelope.to_dict`, restricted
to the keys `to_dict` emits (each with its Python runtime type). -/
structure EnvelopeDict where
  event_type : String
  task_id : String
  job_type : String
  project_id : String
  page_id : Option String
  user_id : Int
  seq : Int
  ts : Int
  detail_url : String
  meta : Meta
  deriving DecidableEq, Repr

/-- `EventEnvelope.to_dict`: enums serialized as their `.value` string tags. -/
def EventEnvelope.to_dict (e : EventEnvelope) : EnvelopeDict :=
  { event_type := e.event_type.value, task_id := e.task_id,
    job_type := e.job_type.value, project_id := e.project_id,
    page_id := e.page_id, user_id := e.user_id, seq := e.seq, ts := e.ts,
    detail_url := e.detail_url, meta := e.meta }

/-- `EventEnvelope.from_dict`: the source passes `event_type`, `task_id`,
`job_type`, `project_id`, `page_id`, `user_id`, `seq`, `ts` and `detail_url`
to the constructor but never reads `data["meta"]`, so the constructed
envelope always gets the `meta` field's default (an empty dict).
`none` models the `ValueError` raised when an enum tag fails to parse. -/
def EventEnvelope.from_dict (d : EnvelopeDict) : Option EventEnvelope :=
  match EventType.ofTag d.event_type with
  | none => none
  | some et =>
    match JobType.ofTag d.job_type with
    | none => none
    | some jt =>
      some (mkEnvelope et d.task_id jt d.project_id d.page_id d.user_id
        d.seq d.ts d.detail_url [])

/-! ## groups.py -/

/-- The `GroupTarget` dataclass from `groups.py`. -/
structure GroupTarget where
  group_name : String
  group_type : String
  entity_id : String
  permissions_required : List String
  description : String
  project_id : Option String
  workspace_id : Option String
  deriving DecidableEq, Repr

/-- `GroupManager.get_user_groups`. -/
def get_user_groups (user_id : Int) : List GroupTarget :=
  [{ group_name := "user_" ++ toString user_id, group_type := "user",
     entity_id := toString user_id, permissions_required := ["user_access"],
     description := "User " ++ toString user_id ++ " specific notifications",
     project_id := none, workspace_id := none }]

/-- `GroupManager.get_project_groups`. -/
def get_project_groups (project_id : String) (user_id : Int) : List GroupTarget :=
  [{ group_name := "project_" ++ project_id, group_type := "project",
     entity_id := project_id,
     permissions_required := ["project_member", "user_access"],
     description := "Project " ++ project_id ++ " updates",
     project_id := none, workspace_id := none },
   { group_name := "project_" ++ project_id ++ "_user_" ++ toString user_id,
     group_type := "project_user",
     entity_id := project_id ++ "_" ++ toString user_id,
     permissions_required := ["project_member", "user_access"],
     description := "Project " ++ project_id ++ " updates for user " ++ toString user_id,
     project_id := none, workspace_id := none }]

/-- `GroupManager.get_job_groups` (these carry the `project_id`). -/
def get_job_groups (task_id : String) (project_id : String) (user_id : Int) :
    List GroupTarget :=
  [{ group_name := "job_" ++ task_id, group_type := "job",
     entity_id := task_id,
     permissions_required := ["job_access", "project_member"],
     description := "Job " ++ task_id ++ " updates",
     project_id := some project_id, workspace_id := none },
   { group_name := "project_" ++ project_id ++ "_job_" ++ task_id,
     group_type := "project_job",
     entity_id := project_id ++ "_" ++ task_id,
     permissions_required := ["job_access", "project_member"],
     description := "Job " ++ task_id ++ " updates in project " ++ project_id,
     project_id := some project_id, workspace_id := none }]

/-- `GroupManager.get_workspace_groups`. -/
def get_workspace_groups (workspace_id : String) (user_id : Int) : List GroupTarget :=
  [{ group_name := "workspace_" ++ workspace_id, group_type := "workspace",
     entity_id := workspace_id,
     permissions_required := ["workspace_member", "user_access"],
     description := "Workspace " ++ workspace_id ++ " updates",
     project_id := none, workspace_id := none },
   { group_name := "workspace_" ++ workspace_id ++ "_user_" ++ toString user_id,
     group_type := "workspace_user",
     entity_id := workspace_id ++ "_" ++ toString user_id,
     permissions_required := ["workspace_member", "user_access"],
     description := "Workspace " ++ workspace_id ++ " updates for user " ++ toString user_id,
     project_id := none, workspace_id := none }]

/-- `GroupManager.compute_groups_for_event`. Note that the `page_id` parameter
is accepted but never used in the body, and `if project_id:` / `if task_id:` /
`if workspace_id:` are Python truthiness tests (empty strings and `None` are
falsy). -/
def compute_groups_for_event (event_type : String) (task_id : String)
    (project_id : String) (user_id : Int) (workspace_id : Option String)
    (page_id : Option String) : List GroupTarget :=
  let groups := get_user_groups user_id
  let groups := groups ++ (if project_id ≠ "" then get_project_groups project_id user_id else [])
  let groups := groups ++ (if task_id ≠ "" then get_job_groups task_id project_id user_id else [])
  let groups := groups ++
    (match workspace_id with
     | some w => if w ≠ "" then get_workspace_groups w user_id else []
     | none => [])
  groups

/-! ## permissions.py -/

/-- `PermissionChecker.check_user_access`. -/
def check_user_access (user_id target_user_id : Int) : Bool :=
  user_id = target_user_id

/-- `PermissionChecker.check_project_member`. The source is a placeholder that
returns `True` for every user (production wiring is expected to supply a real
membership lookup). -/
def check_project_member (user_id : Int) (project_id : String) : Bool :=
  true

/-- `PermissionChecker.check_workspace_member` (placeholder returning `True`). -/
def check_workspace_member (user_id : Int) (workspace_id : String) : Bool :=
  true

/-- `PermissionChecker.check_job_access`: project membership on the job's project. -/
def check_job_access (user_id : Int) (task_id project_id : String) : Bool :=
  check_project_member user_id project_id

/-- `PermissionChecker.check_page_access`: project membership on the page's project. -/
def check_page_access (user_id : Int) (page_id project_id : String) : Bool :=
  check_project_member user_id project_id

/-- `PermissionChecker.check_event_access` (always `True`). -/
def check_event_access (user_id : Int) (event_type : String) : Bool :=
  true

/-- `PermissionChecker._check_permission`. For `job_access`/`page_access` the
group's carried `project_id` is required: `if not project_id: return False`
is a Python truthiness test, so both a missing (`None`) and an empty-string
`project_id` are denied (fail-closed). For `user_access` on a `user` group,
`int(entity_id)` raising `ValueError` yields `False`. -/
def check_permission (user_id : Int) (permission : String) (g : GroupTarget) : Bool :=
  if permission = "user_access" then
    if g.group_type = "user" then
      match pyInt? g.entity_id with
      | some target => check_user_access user_id target
      | none => false
    else
      true
  else if permission = "project_member" then
    check_project_member user_id g.entity_id
  else if permission = "workspace_member" then
    check_workspace_member user_id g.entity_id
  else if permission = "job_access" then
    match g.project_id with
    | some p => if p = "" then false else check_job_access user_id g.entity_id p
    | none => false
  else if permission = "page_access" then
    match g.project_id with
    | some p => if p = "" then false else check_page_access user_id g.entity_id p
    | none => false
  else if permission = "event_access" then
    check_event_access user_id g.entity_id
  else
    false

/-- `PermissionChecker.validate_group_access`: conjunction of
`_check_permission` over all `permissions_required`. -/
def validate_group_access (user_id : Int) (g : GroupTarget) : Bool :=
  g.permissions_required.all (fun p => check_permission user_id p g)

/-- `PermissionChecker.filter_accessible_groups`: order-preserving filter. -/
def filter_accessible_groups (user_id : Int) (groups : List GroupTarget) :
    List GroupTarget :=
  groups.filter (fun g => validate_group_access user_id g)

/-! ## sequencer.py

The sequencer is backed by a Redis atomic counter (`INCR` on `seq:task:{id}`,
starting at 1 for an unseen key). With the counter store available it is a
per-task counter map; `get_next_sequence` increments and returns the new value.
-/

/-- The per-`task_id` counter values held by the counter store
(0 for a never-seen task, as Redis `INCR` on a missing key yields 1). -/
abbrev SeqMap := String → Int

/-- `SequenceManager.get_next_sequence` with the counter store available:
atomically increment the task's counter and return the new value. -/
def get_next_sequence (m : SeqMap) (task_id : String) : Int × SeqMap :=
  (m task_id + 1, fun t => if t = task_id then m task_id + 1 else m t)

/-! ## bridge.py -/

/-- The `PublishResult` dataclass. The wall-clock `latency_ms` field is a time
measurement with no logical content and is omitted from the embedding. -/
structure PublishResult where
  success : Bool
  retry_count : Nat
  error : Option String
  deriving DecidableEq, Repr

/-- The warning string built by `publish_event_async` when
`publish_envelope_async` reports zero groups. -/
def noGroupsWarning (event_type : EventType) (task_id : String) : String :=
  "No accessible groups found when publishing " ++ event_type.value ++
    " event for task " ++ task_id

/-- `CeleryChannelsBridge.publish_envelope_async`, as the count of groups the
envelope is dispatched to: 0 when the channel layer is not configured,
otherwise the size of the permission-filtered group set (0 when that set is
empty, in which case `_publish_to_groups` is never reached). -/
def publish_envelope_count (layer : Bool) (e : EventEnvelope)
    (workspace_id : Option String) : Nat :=
  if layer then
    (filter_accessible_groups e.user_id
      (compute_groups_for_event e.event_type.value e.task_id e.project_id
        e.user_id workspace_id e.page_id)).length
  else
    0

/-- Outcome of the retry loop of `publish_event_async`: the returned result,
the backoff delays slept (in seconds, as exact rationals), and the envelope
passed to `publish_envelope_async` on each attempt, in order. -/
structure LoopOut where
  result : PublishResult
  delays : List ℚ
  attempts : List EventEnvelope
  deriving Repr

/-- The backoff delay the code computes after the `k`-th failed attempt
(`retry_count` already incremented to `k`):
`min(2**retry_count + retry_count * 0.1, 10.0)`. -/
def backoffDelay (k : Nat) : ℚ :=
  min ((2 : ℚ) ^ k + (k : ℚ) / 10) 10

/-- The `while retry_count <= max_retries` loop of `publish_event_async`.
`count` is the (attempt-independent) group count `publish_envelope_async`
returns when it does not raise; `transport k` is `some errmsg` when the
fan-out transport raises on attempt `k` and `none` when that attempt returns
normally. The transport is only reachable when `count > 0` (with zero groups
the attempt returns before fanning out, so nothing can raise). `k` is the
current `retry_count` and `fuel = max_retries + 1 - k` bounds the recursion
exactly as the loop guard does. -/
def publish_loop (env : EventEnvelope) (count : Nat) (emptyErr : String)
    (transport : Nat → Option String) (max_retries : Nat) :
    Nat → Nat → LoopOut
  | _, 0 => ⟨⟨false, 0, none⟩, [], []⟩
  | k, fuel + 1 =>
    if count = 0 then
      ⟨⟨false, k, some emptyErr⟩, [], [env]⟩
    else
      match transport k with
      | none => ⟨⟨true, k, none⟩, [], [env]⟩
      | some err =>
        if k + 1 ≤ max_retries then
          let rest := publish_loop env count emptyErr transport max_retries (k + 1) fuel
          ⟨rest.result, backoffDelay (k + 1) :: rest.delays, env :: rest.attempts⟩
        else
          ⟨⟨false, k + 1, some err⟩, [], [env]⟩

/-- Everything `publish_event_async` produces: the result, the backoff delays,
the envelope fanned out on each attempt, the sequencer state after the call,
and the (single) envelope that was built. -/
structure PublishOut where
  result : PublishResult
  delays : List ℚ
  attempts : List EventEnvelope
  seqMap : SeqMap
  envelope : EventEnvelope

/-- `meta or {}`: a Python truthiness test, so an empty dict behaves like
`None`. -/
def pyMetaOr (meta : Option Meta) : Meta :=
  match meta with
  | some m => if m ≠ [] then m else []
  | none => []

/-- The envelope `publish_event_async` builds once, before the retry loop:
sequence number from the sequencer, `ts` the clock reading at entry, no
`detail_url` argument (so the `__post_init__` default applies). -/
def bridgeEnvelope (seqMap : SeqMap) (event_type : EventType) (task_id : String)
    (job_type : JobType) (project_id : String) (user_id : Int)
    (page_id : Option String) (meta : Option Meta) (ts : Int) : EventEnvelope :=
  mkEnvelope event_type task_id job_type project_id page_id user_id
    (seqMap task_id + 1) ts "" (pyMetaOr meta)

/-- `CeleryChannelsBridge.publish_event_async`. The sequence number is taken
once and the envelope is built once; the retry loop re-publishes that same
envelope. -/
def publish_event_async (layer : Bool) (transport : Nat → Option String)
    (seqMap : SeqMap) (event_type : EventType) (task_id : String)
    (job_type : JobType) (project_id : String) (user_id : Int)
    (page_id : Option String) (workspace_id : Option String)
    (meta : Option Meta) (max_retries : Nat) (ts : Int) : PublishOut :=
  let next := get_next_sequence seqMap task_id
  let env := bridgeEnvelope seqMap event_type task_id job_type project_id
    user_id page_id meta ts
  let count := publish_envelope_count layer env workspace_id
  let lo := publish_loop env count (noGroupsWarning event_type task_id)
    transport max_retries 0 (max_retries + 1)
  ⟨lo.result, lo.delays, lo.attempts, next.2, env⟩

/-! ## publisher.py -/

/-- What `EventPublisher.workspace_event` does, observed as the list of group
names handed to `channel_layer.group_send` (via `_publish_to_group`), plus the
envelope built and the sequencer state after the call. Per-group send failures
are caught inside `_publish_to_group`, so every target group is attempted; the
function returns `True` unless envelope construction itself raises (it cannot
here). `if groups:` is a Python truthiness test, so an explicit empty list
falls back to the computed groups. `_compute_groups` maps
`GroupManager.compute_groups_for_event` (passing the event's `page_id` and no
`workspace_id`) to bare group names, with no permission filtering. -/
structure PublisherOut where
  ok : Bool
  sent : List String
  envelope : EventEnvelope
  seqMap : SeqMap

/-- `EventPublisher.workspace_event`. -/
def publisher_workspace_event (layer : Bool) (seqMap : SeqMap)
    (event_type : EventType) (task_id : String) (job_type : JobType)
    (project_id : String) (user_id : Int) (groups : Option (List String))
    (page_id : Option String) (detail_url : Option String)
    (meta : Option Meta) (ts : Int) : PublisherOut :=
  let next := get_next_sequence seqMap task_id
  let env := mkEnvelope event_type task_id job_type project_id page_id user_id
    next.1 ts (pyStrOr detail_url ("/api/jobs/" ++ task_id))
    (match meta with
     | some m => if m ≠ [] then m else []
     | none => [])
  let target_groups :=
    match groups with
    | some gs =>
      if gs ≠ [] then gs
      else (compute_groups_for_event event_type.value task_id project_id
        user_id none page_id).map GroupTarget.group_name
    | none => (compute_groups_for_event event_type.value task_id project_id
        user_id none page_id).map GroupTarget.group_name
  ⟨true, if layer then target_groups else [], env, next.2⟩

/-! ## workspace.models: JobState / JobStatus

The `JobState` enum and the `JobStatus` Django model are imported by
`notifier.py` from `workspace.models` but their declarations are not part of
the sources at hand; only the members `PENDING`, `RUNNING`, `SUCCESS` and
`FAILURE` and the row fields read and written by `notifier.py` are visible.
-/

/-- Modelled from the spec: the `JobState` enum (`state` "enum mirroring
pipeline state", §3) with the members `notifier.py` uses. -/
inductive JobState where
  | PENDING
  | RUNNING
  | SUCCESS
  | FAILURE
  deriving DecidableEq, Repr

/-- Modelled from the spec: the `.value` string tag of a `JobState` member,
used by `notifier.py` as the default `step` text. The repository's
`TextChoices` enums use lowercase value strings. -/
def JobState.value : JobState → String
  | .PENDING => "pending"
  | .RUNNING => "running"
  | .SUCCESS => "success"
  | .FAILURE => "failure"

/-- One `JobStatus` row, with exactly the fields `notifier.py` reads and
writes: `state`, `step`, `pct`, `seq`, `meta_json`, `project_id`, `user_id`
(`updated_at` is a timestamp column with no logical content here). -/
structure JobStatusRow where
  state : JobState
  step : String
  pct : Int
  seq : Option Int
  meta_json : Meta
  project_id : Int
  user_id : Option Int
  deriving DecidableEq, Repr

/-- Modelled from the spec: the transactional record store holding one
`JobStatus` row per `task_id` (§6: "a transactional record store for
JobStatus"; the persistence engine is out of scope and exposes get /
update-with-compare-and-set semantics). -/
abbrev Store := String → Option JobStatusRow

/-- `JobStatus.objects.select_for_update().get_or_create(task_id=..., defaults=...)`:
return the existing row, or insert the defaults row and return it. -/
def getOrCreate (s : Store) (task_id : String) (defaults : JobStatusRow) :
    JobStatusRow × Store :=
  match s task_id with
  | some r => (r, s)
  | none => (defaults, fun t => if t = task_id then some defaults else s t)

/-! ## notifier.py -/

/-- The `NotifyResult` dataclass. -/
structure NotifyResult where
  envelope : Option EventEnvelope
  persisted : Bool
  dispatched : Bool
  deriving DecidableEq, Repr

/-- The state `notifier.py` operates on: the job-status store and the
sequencer counters. -/
structure NotifierState where
  store : Store
  seqMap : SeqMap

/-- Everything a notifier call produces: the returned `NotifyResult`
(`none` models an uncaught exception escaping the call), the store and
sequencer state afterwards, and the envelopes handed to
`bridge.publish_event_sync` (at most one). -/
structure NotifyOut where
  result : Option NotifyResult
  store : Store
  seqMap : SeqMap
  published : List EventEnvelope

/-- `_map_event_to_state`. -/
def map_event_to_state : EventType → JobState
  | .TASK_COMPLETED => .SUCCESS
  | .TASK_FAILED => .FAILURE
  | .TASK_STARTED => .RUNNING
  | .TASK_PROGRESS => .RUNNING
  | _ => .PENDING

/-- `(payload.get("pipeline_step") or payload.get("step") or state.value).strip()`:
the first truthy of the two payload entries, else the state's value string,
then `str.strip()`. A truthy non-string payload value makes `.strip()` raise
`AttributeError`, modelled as `none`. -/
def stepOf (payload : Meta) (state : JobState) : Option String :=
  match pyOr (metaGet payload "pipeline_step")
      (pyOr (metaGet payload "step") (some (JVal.s state.value))) with
  | some (JVal.s s) => some (pyStrip s)
  | _ => none

/-- The `progress` derivation: `payload.get("pipeline_progress") or
payload.get("progress")`, then `max(0, min(100, int(raw)))` when the raw value
is an `int`/`float` (Python `bool` is an `int` subclass, `int(True) = 1`),
else 0. -/
def progressOf (payload : Meta) : Int :=
  match pyOr (metaGet payload "pipeline_progress") (metaGet payload "progress") with
  | some (JVal.i v) => max 0 (min 100 v)
  | some (JVal.b v) => max 0 (min 100 (if v then 1 else 0))
  | _ => 0

/-- `user_id if user_id else None`: Python truthiness, so `0` becomes `None`. -/
def truthyUser : Option Int → Option Int
  | some v => if v = 0 then none else some v
  | none => none

/-- `seq <= job_status.seq` guarded by `job_status.seq is not None`. -/
def staleGate (stored : Option Int) (incoming : Int) : Bool :=
  match stored with
  | some s => incoming ≤ s
  | none => false

/-- The transactional body shared by `workspace_event` and `page_event`:
`get_or_create` with the event's data as defaults, then the stale gate, then
the in-place update and `save`. Returns the store after commit and the
`persisted` flag. A freshly created row carries `seq` equal to the incoming
sequence (from the defaults), so the gate `seq <= job_status.seq` also fires
on the create path. -/
def persistJobStatus (s : Store) (task_id : String) (seq : Int)
    (state : JobState) (step : String) (progress : Int) (payload : Meta)
    (project_id : Int) (user_id : Option Int) : Store × Bool :=
  let defaults : JobStatusRow :=
    ⟨state, step, progress, some seq, payload, project_id, truthyUser user_id⟩
  let gc := getOrCreate s task_id defaults
  if staleGate gc.1.seq seq then
    (gc.2, false)
  else
    let row : JobStatusRow :=
      ⟨state, step, progress, some seq, metaUpdate gc.1.meta_json payload,
        project_id, truthyUser user_id⟩
    (fun t => if t = task_id then some row else gc.2 t, true)

/-- `workspace_event` from `notifier.py`. `oracle` abstracts the boolean
outcome of `bridge.publish_event_sync` for a given envelope and routing
workspace id (the bridge catches its own exceptions and returns a `bool`);
`now` is the clock reading used for the envelope's `ts`. The `task_id` and
`project_id` arguments are the results of `str(task_id)` and the numeric
parse `int(project_id_str)` respectively, so `project_id` is carried as an
integer and rendered with `toString` where the code uses the string form.
The sequence number is taken before the step/progress derivation, so it is
consumed even when `.strip()` raises. -/
def workspace_event (oracle : EventEnvelope → String → Bool)
    (st : NotifierState) (event_type : EventType) (task_id : String)
    (project_id : Int) (user_id : Option Int) (job_type : JobType)
    (payload : Meta) (detail_url : Option String)
    (workspace_id : Option String) (now : Int) : NotifyOut :=
  let next := get_next_sequence st.seqMap task_id
  let seq := next.1
  let state := map_event_to_state event_type
  match stepOf payload state with
  | none => ⟨none, st.store, next.2, []⟩
  | some step =>
    let progress := progressOf payload
    let pb := persistJobStatus st.store task_id seq state step progress payload
      project_id user_id
    if pb.2 then
      let env := mkEnvelope event_type task_id job_type (toString project_id)
        none (user_id.getD 0) seq now
        (pyStrOr detail_url ("/api/workspaces/" ++ task_id ++ "/")) payload
      ⟨some ⟨some env, true, oracle env (pyStrOr workspace_id (toString project_id))⟩,
        pb.1, next.2, [env]⟩
    else
      ⟨some ⟨none, false, false⟩, pb.1, next.2, []⟩

/-- The payload mutation at the top of `page_event`: `page_id`, `page_number`
and `workspace_id` are written into the payload dict when not `None`. -/
def pagePayload (payload : Meta) (page_id : Option String)
    (page_number : Option Int) (workspace_id : Option String) : Meta :=
  let p1 := match page_id with
    | some p => metaSet payload "page_id" (JVal.s p)
    | none => payload
  let p2 := match page_number with
    | some n => metaSet p1 "page_number" (JVal.i n)
    | none => p1
  match workspace_id with
  | some w => metaSet p2 "workspace_id" (JVal.s w)
  | none => p2

/-- The detail-url default of `page_event` (only applied when the caller
passed `None`, an `is None` test rather than a truthiness test). -/
def pageDetailUrl (project_id : Int) (page_number : Option Int)
    (workspace_id : Option String) : String :=
  let base := "/api/workspaces/" ++ pyStrOr workspace_id (toString project_id) ++ "/"
  match page_number with
  | some n => base ++ "pages/" ++ toString n ++ "/"
  | none => base

/-- `page_event` from `notifier.py`: same persistence logic as
`workspace_event` over the page-augmented payload, an envelope carrying
`page_id` and the page detail url. -/
def page_event (oracle : EventEnvelope → String → Bool)
    (st : NotifierState) (event_type : EventType) (task_id : String)
    (project_id : Int) (user_id : Option Int) (job_type : JobType)
    (page_id : Option String) (page_number : Option Int)
    (workspace_id : Option String) (payload : Meta)
    (detail_url : Option String) (now : Int) : NotifyOut :=
  let payload := pagePayload payload page_id page_number workspace_id
  let next := get_next_sequence st.seqMap task_id
  let seq := next.1
  let state := map_event_to_state event_type
  match stepOf payload state with
  | none => ⟨none, st.store, next.2, []⟩
  | some step =>
    let progress := progressOf payload
    let pb := persistJobStatus st.store task_id seq state step progress payload
      project_id user_id
    if pb.2 then
      let env := mkEnvelope event_type task_id job_type (toString project_id)
        page_id (user_id.getD 0) seq now
        (match detail_url with
         | some d => d
         | none => pageDetailUrl project_id page_number workspace_id) payload
      ⟨some ⟨some env, true, oracle env (pyStrOr workspace_id (toString project_id))⟩,
        pb.1, next.2, [env]⟩
    else
      ⟨some ⟨none, false, false⟩, pb.1, next.2, []⟩

/-- One apply operation against the job-status projector: an invocation of
`workspace_event` or of `page_event` with its arguments. -/
inductive NotifyOp where
  | ws (event_type : EventType) (task_id : String) (project_id : Int)
      (user_id : Option Int) (job_type : JobType) (payload : Meta)
      (detail_url : Option String) (workspace_id : Option String) (now : Int)
  | pg (event_type : EventType) (task_id : String) (project_id : Int)
      (user_id : Option Int) (job_type : JobType) (page_id : Option String)
      (page_number : Option Int) (workspace_id : Option String)
      (payload : Meta) (detail_url : Option String) (now : Int)

/-- Run one apply operation, threading the store and sequencer state. -/
def applyOp (oracle : EventEnvelope → String → Bool) (st : NotifierState)
    (op : NotifyOp) : NotifierState :=
  match op with
  | .ws et t p u j pl du w n =>
    let out := workspace_event oracle st et t p u j pl du w n
    ⟨out.store, out.seqMap⟩
  | .pg et t p u j pid pn w pl du n =>
    let out := page_event oracle st et t p u j pid pn w pl du n
    ⟨out.store, out.seqMap⟩

/-! ## Sample data used by concrete witnesses and counterexamples -/

/-- A transport-outcome oracle for `publish_event_sync` that reports success. -/
def okOracle : EventEnvelope → String → Bool := fun _ _ => true

/-- A store row with `seq = 10`, ahead of the sequencer sample below. -/
def staleRow : JobStatusRow := ⟨.RUNNING, "running", 50, some 10, [], 9, some 3⟩

/-- A notifier state whose stored row for task `"t"` is ahead of the sequencer
counter (stored `seq = 10`, counter at 5), as arises under concurrent writers. -/
def staleState : NotifierState :=
  ⟨fun t => if t = "t" then some staleRow else none,
   fun t => if t = "t" then 5 else 0⟩

/-- A store row with `seq = 1` for the monotonicity witness. -/
def growRow : JobStatusRow := ⟨.RUNNING, "running", 0, some 1, [], 9, some 3⟩

/-- A notifier state whose stored row for task `"t"` has `seq = 1` with the
sequencer counter at 1, so the next event passes the gate. -/
def growState : NotifierState :=
  ⟨fun t => if t = "t" then some growRow else none,
   fun t => if t = "t" then 1 else 0⟩

/-- One subsequent apply operation for task `"t"`. -/
def growOps : List NotifyOp :=
  [.ws .TASK_PROGRESS "t" 9 (some 3) .PDF_EXTRACTION [] none none 0]

/-- The row stored for `"t"` after running `growOps` from `growState`. -/
def grownRow : JobStatusRow := ⟨.RUNNING, "running", 0, some 2, [], 9, some 3⟩

/-- An envelope with non-empty `meta`, for the serialization round-trip. -/
def metaEnvelope : EventEnvelope :=
  mkEnvelope .TASK_PROGRESS "t" .SYNC "p" none 1 5 123 "" [("k", JVal.i 1)]

/-- A `GroupTarget` of type `job` carrying no `project_id`. -/
def orphanJobGroup : GroupTarget :=
  ⟨"job_t", "job", "t", ["job_access", "project_member"], "Job t updates",
    none, none⟩

/-- A fan-out transport that raises on every attempt. -/
def throwingTransport : Nat → Option String := fun _ => some "boom"

/-- A store row with `seq = 1` and a running state, prior to completion. -/
def preCompletedRow : JobStatusRow := ⟨.RUNNING, "running", 50, some 1, [], 9, some 3⟩

/-- A notifier state holding `preCompletedRow` for task `"t"` with the
sequencer counter at 1. -/
def preCompletedState : NotifierState :=
  ⟨fun t => if t = "t" then some preCompletedRow else none,
   fun t => if t = "t" then 1 else 0⟩

/-- A completion payload carrying `pipeline_progress = 100`, as the pipeline's
workspace-completion event does. -/
def completedPayload : Meta := [("pipeline_progress", JVal.i 100)]

/-! ## Helper lemmas -/

/-- With an existing row and the stale gate firing, the transactional body
commits nothing and reports `persisted = False`. -/
theorem persistJobStatus_stale (s : Store) (task_id : String) (seq : Int)
    (state : JobState) (step : String) (progress : Int) (payload : Meta)
    (project_id : Int) (user_id : Option Int) (r : JobStatusRow)
    (hr : s task_id = some r) (hg : staleGate r.seq seq = true) :
    persistJobStatus s task_id seq state step progress payload project_id user_id =
      (s, false) := by
  simp [persistJobStatus, getOrCreate, hr, hg]

/-- The stored sequence of any row never decreases across one transactional
body, and rows are never deleted. -/
theorem persistJobStatus_mono (s : Store) (task_id : String) (seq : Int)
    (state : JobState) (step : String) (progress : Int) (payload : Meta)
    (project_id : Int) (user_id : Option Int) (t : String) (r : JobStatusRow)
    (hr : s t = some r) :
    ∃ r', (persistJobStatus s task_id seq state step progress payload
        project_id user_id).1 t = some r' ∧
      (∀ v, r.seq = some v → ∃ v', r'.seq = some v' ∧ v ≤ v') := by
  unfold persistJobStatus getOrCreate
  cases hs : s task_id with
  | some r0 =>
    cases hg : staleGate r0.seq seq with
    | true =>
      refine ⟨r, ?_, fun v hv => ⟨v, hv, le_refl v⟩⟩
      simp [hg, hr]
    | false =>
      by_cases ht : t = task_id
      · subst ht
        have hr0 : r0 = r := by rw [hs] at hr; exact (Option.some_inj.mp hr)
        subst hr0
        refine ⟨⟨state, step, progress, some seq, metaUpdate r0.meta_json payload,
          project_id, truthyUser user_id⟩, ?_, ?_⟩
        · simp [hg]
        · intro v hv
          refine ⟨seq, rfl, ?_⟩
          rw [hv] at hg
          simp only [staleGate, decide_eq_false_iff_not, not_le] at hg
          omega
      · refine ⟨r, ?_, fun v hv => ⟨v, hv, le_refl v⟩⟩
        simp [hg, ht, hr]
  | none =>
    by_cases ht : t = task_id
    · subst ht; rw [hs] at hr; exact absurd hr (by simp)
    · cases hg : staleGate (some seq) seq with
      | true => refine ⟨r, ?_, fun v hv => ⟨v, hv, le_refl v⟩⟩; simp [hg, ht, hr]
      | false => refine ⟨r, ?_, fun v hv => ⟨v, hv, le_refl v⟩⟩; simp [hg, ht, hr]

/-- A `workspace_event` call whose stored row is at or ahead of the incoming
sequence returns the stale result, leaves the store untouched, publishes
nothing, and advances only the sequencer counter. -/
theorem workspace_event_stale (oracle : EventEnvelope → String → Bool)
    (st : NotifierState) (event_type : EventType) (task_id : String)
    (project_id : Int) (user_id : Option Int) (job_type : JobType)
    (payload : Meta) (detail_url : Option String) (workspace_id : Option String)
    (now : Int) (r : JobStatusRow) (s : Int) (stp : String)
    (hr : st.store task_id = some r) (hs : r.seq = some s)
    (hle : st.seqMap task_id + 1 ≤ s)
    (hstep : stepOf payload (map_event_to_state event_type) = some stp) :
    workspace_event oracle st event_type task_id project_id user_id job_type
      payload detail_url workspace_id now =
    ⟨some ⟨none, false, false⟩, st.store,
      fun t => if t = task_id then st.seqMap task_id + 1 else st.seqMap t, []⟩ := by
  have hg : staleGate r.seq (st.seqMap task_id + 1) = true := by
    rw [hs]; exact decide_eq_true hle
  unfold workspace_event
  simp only [get_next_sequence, hstep]
  rw [persistJobStatus_stale _ _ _ _ _ _ _ _ _ r hr hg]
  simp

/-- The `page_event` analogue of `workspace_event_stale`. -/
theorem page_event_stale (oracle : EventEnvelope → String → Bool)
    (st : NotifierState) (event_type : EventType) (task_id : String)
    (project_id : Int) (user_id : Option Int) (job_type : JobType)
    (page_id : Option String) (page_number : Option Int)
    (workspace_id : Option String) (payload : Meta) (detail_url : Option String)
    (now : Int) (r : JobStatusRow) (s : Int) (stp : String)
    (hr : st.store task_id = some r) (hs : r.seq = some s)
    (hle : st.seqMap task_id + 1 ≤ s)
    (hstep : stepOf (pagePayload payload page_id page_number workspace_id)
      (map_event_to_state event_type) = some stp) :
    page_event oracle st event_type task_id project_id user_id job_type
      page_id page_number workspace_id payload detail_url now =
    ⟨some ⟨none, false, false⟩, st.store,
      fun t => if t = task_id then st.seqMap task_id + 1 else st.seqMap t, []⟩ := by
  have hg : staleGate r.seq (st.seqMap task_id + 1) = true := by
    rw [hs]; exact decide_eq_true hle
  unfold page_event
  simp only [get_next_sequence, hstep]
  rw [persistJobStatus_stale _ _ _ _ _ _ _ _ _ r hr hg]
  simp

/-- One apply operation never decreases any row's stored sequence. -/
theorem applyOp_mono (oracle : EventEnvelope → String → Bool)
    (st : NotifierState) (op : NotifyOp) (t : String) (r : JobStatusRow)
    (hr : st.store t = some r) :
    ∃ r', (applyOp oracle st op).store t = some r' ∧
      (∀ v, r.seq = some v → ∃ v', r'.seq = some v' ∧ v ≤ v') := by
  cases op with
  | ws et task p u j pl du w n =>
    simp only [applyOp]
    cases hstep : stepOf pl (map_event_to_state et) with
    | none =>
      simp only [workspace_event, get_next_sequence, hstep]
      exact ⟨r, hr, fun v hv => ⟨v, hv, le_refl v⟩⟩
    | some stp =>
      simp only [workspace_event, get_next_sequence, hstep]
      obtain ⟨r', h1, h2⟩ := persistJobStatus_mono st.store task (st.seqMap task + 1)
        (map_event_to_state et) stp (progressOf pl) pl p u t r hr
      refine ⟨r', ?_, h2⟩
      by_cases hp : (persistJobStatus st.store task (st.seqMap task + 1)
          (map_event_to_state et) stp (progressOf pl) pl p u).2 = true
      · simp only [if_pos hp]; exact h1
      · simp only [if_neg hp]; exact h1
  | pg et task p u j pid pn w pl du n =>
    simp only [applyOp]
    cases hstep : stepOf (pagePayload pl pid pn w) (map_event_to_state et) with
    | none =>
      simp only [page_event, get_next_sequence, hstep]
      exact ⟨r, hr, fun v hv => ⟨v, hv, le_refl v⟩⟩
    | some stp =>
      simp only [page_event, get_next_sequence, hstep]
      obtain ⟨r', h1, h2⟩ := persistJobStatus_mono st.store task (st.seqMap task + 1)
        (map_event_to_state et) stp (progressOf (pagePayload pl pid pn w))
        (pagePayload pl pid pn w) p u t r hr
      refine ⟨r', ?_, h2⟩
      by_cases hp : (persistJobStatus st.store task (st.seqMap task + 1)
          (map_event_to_state et) stp (progressOf (pagePayload pl pid pn w))
          (pagePayload pl pid pn w) p u).2 = true
      · simp only [if_pos hp]; exact h1
      · simp only [if_neg hp]; exact h1

/-- Any sequence of apply operations never decreases any row's stored
sequence number. -/
theorem foldl_applyOp_mono (oracle : EventEnvelope → String → Bool)
    (ops : List NotifyOp) (st : NotifierState) (t : String) (r : JobStatusRow)
    (hr : st.store t = some r) :
    ∃ r', ((ops.foldl (applyOp oracle) st).store t = some r') ∧
      (∀ v, r.seq = some v → ∃ v', r'.seq = some v' ∧ v ≤ v') := by
  induction ops generalizing st r with
  | nil => exact ⟨r, hr, fun v hv => ⟨v, hv, le_refl v⟩⟩
  | cons op rest ih =>
    obtain ⟨r1, h1, l1⟩ := applyOp_mono oracle st op t r hr
    obtain ⟨r2, h2, l2⟩ := ih (applyOp oracle st op) r1 h1
    refine ⟨r2, h2, fun v hv => ?_⟩
    obtain ⟨v1, hv1, le1⟩ := l1 v hv
    obtain ⟨v2, hv2, le2⟩ := l2 v1 hv1
    exact ⟨v2, hv2, le_trans le1 le2⟩

/-- With an always-throwing transport and a non-empty group set, the retry
loop performs one attempt per remaining retry budget, sleeps the coded
backoff before each retry, and ends with the last error and a `retry_count`
one past `max_retries`. -/
theorem publish_loop_throw (env : EventEnvelope) (count : Nat) (emptyErr : String)
    (transport : Nat → Option String) (max_retries : Nat)
    (hcount : count ≠ 0) (hthrow : ∀ i, transport i ≠ none) :
    ∀ fuel k, k ≤ max_retries → fuel = max_retries + 1 - k →
    publish_loop env count emptyErr transport max_retries k fuel =
      ⟨⟨false, max_retries + 1, transport max_retries⟩,
       (List.range' (k + 1) (max_retries - k)).map backoffDelay,
       List.replicate fuel env⟩ := by
  intro fuel
  induction fuel with
  | zero => intro k hk hf; omega
  | succ fuel ih =>
    intro k hk hf
    unfold publish_loop
    rw [if_neg hcount]
    cases htr : transport k with
    | none => exact absurd htr (hthrow k)
    | some err =>
      dsimp only
      by_cases hk1 : k + 1 ≤ max_retries
      · rw [if_pos hk1, ih (k + 1) hk1 (by omega)]
        have hrange : List.range' (k + 1) (max_retries - k) =
            (k + 1) :: List.range' (k + 2) (max_retries - (k + 1)) := by
          have h : max_retries - k = (max_retries - (k + 1)) + 1 := by omega
          rw [h, List.range'_succ]
        simp [hrange, List.replicate_succ]
      · have hkm : k = max_retries := by omega
        rw [if_neg hk1]
        subst hkm
        have hf0 : fuel = 0 := by omega
        subst hf0
        simp [htr]

/-- Every envelope fanned out by any iteration of the retry loop is the one
envelope the loop was given. -/
theorem publish_loop_attempts_all (env : EventEnvelope) (count : Nat)
    (emptyErr : String) (transport : Nat → Option String) (max_retries : Nat) :
    ∀ fuel k e, e ∈ (publish_loop env count emptyErr transport max_retries k
      fuel).attempts → e = env := by
  intro fuel
  induction fuel with
  | zero => intro k e he; simp [publish_loop] at he
  | succ fuel ih =>
    intro k e he
    unfold publish_loop at he
    by_cases hc : count = 0
    · rw [if_pos hc] at he; simp at he; exact he
    · rw [if_neg hc] at he
      cases htr : transport k with
      | none => rw [htr] at he; simp at he; exact he
      | some err =>
        rw [htr] at he
        dsimp only at he
        by_cases hk1 : k + 1 ≤ max_retries
        · rw [if_pos hk1] at he
          simp at he
          rcases he with he | he
          · exact he
          · exact ih (k + 1) e he
        · rw [if_neg hk1] at he; simp at he; exact he

/-- The retry loop always makes at least one attempt. -/
theorem publish_loop_attempts_ne_nil (env : EventEnvelope) (count : Nat)
    (emptyErr : String) (transport : Nat → Option String) (max_retries : Nat)
    (k fuel : Nat) :
    (publish_loop env count emptyErr transport max_retries k
      (fuel + 1)).attempts ≠ [] := by
  unfold publish_loop
  by_cases hc : count = 0
  · rw [if_pos hc]; simp
  · rw [if_neg hc]
    cases transport k with
    | none => simp
    | some err =>
      dsimp only
      by_cases hk1 : k + 1 ≤ max_retries
      · rw [if_pos hk1]; simp
      · rw [if_neg hk1]; simp

/-! ## Claim theorems -/

/-- C1: every invocation of the job-status apply operation (`workspace_event`
or `page_event`) on a task whose stored `JobStatus` row has `seq` at or above
the incoming sequence number returns `persisted = false` and
`dispatched = false`, publishes no envelope, and leaves the store (hence the
row's `state`, `step`, `pct`, `seq`, `meta_json`) unchanged; and across any
sequence of apply operations a stored row's `seq` never decreases. -/
theorem C1_stale_apply_noop_and_seq_monotone :
    (∀ (oracle : EventEnvelope → String → Bool) (st : NotifierState)
      (event_type : EventType) (task_id : String) (project_id : Int)
      (user_id : Option Int) (job_type : JobType) (payload : Meta)
      (detail_url workspace_id : Option String) (now : Int)
      (r : JobStatusRow) (s : Int) (stp : String),
      st.store task_id = some r → r.seq = some s → st.seqMap task_id + 1 ≤ s →
      stepOf payload (map_event_to_state event_type) = some stp →
      workspace_event oracle st event_type task_id project_id user_id job_type
        payload detail_url workspace_id now =
      ⟨some ⟨none, false, false⟩, st.store,
        fun t => if t = task_id then st.seqMap task_id + 1 else st.seqMap t, []⟩) ∧
    (∀ (oracle : EventEnvelope → String → Bool) (st : NotifierState)
      (event_type : EventType) (task_id : String) (project_id : Int)
      (user_id : Option Int) (job_type : JobType) (page_id : Option String)
      (page_number : Option Int) (workspace_id : Option String) (payload : Meta)
      (detail_url : Option String) (now : Int)
      (r : JobStatusRow) (s : Int) (stp : String),
      st.store task_id = some r → r.seq = some s → st.seqMap task_id + 1 ≤ s →
      stepOf (pagePayload payload page_id page_number workspace_id)
        (map_event_to_state event_type) = some stp →
      page_event oracle st event_type task_id project_id user_id job_type
        page_id page_number workspace_id payload detail_url now =
      ⟨some ⟨none, false, false⟩, st.store,
        fun t => if t = task_id then st.seqMap task_id + 1 else st.seqMap t, []⟩) ∧
    (∀ (oracle : EventEnvelope → String → Bool) (ops : List NotifyOp)
      (st : NotifierState) (t : String) (r r' : JobStatusRow) (v v' : Int),
      st.store t = some r → (ops.foldl (applyOp oracle) st).store t = some r' →
      r.seq = some v → r'.seq = some v' → v ≤ v') := by
  refine ⟨?_, ?_, ?_⟩
  · intro oracle st et task pid uid jt payload durl wsid now r s stp hr hs hle hstep
    exact workspace_event_stale oracle st et task pid uid jt payload durl wsid
      now r s stp hr hs hle hstep
  · intro oracle st et task pid uid jt page pn wsid payload durl now r s stp
      hr hs hle hstep
    exact page_event_stale oracle st et task pid uid jt page pn wsid payload
      durl now r s stp hr hs hle hstep
  · intro oracle ops st t r r' v v' hr hr' hv hv'
    obtain ⟨r2, h2, l2⟩ := foldl_applyOp_mono oracle ops st t r hr
    have hrr : r2 = r' := by rw [h2] at hr'; exact Option.some_inj.mp hr'
    subst hrr
    obtain ⟨v2, hv2, le2⟩ := l2 v hv
    rw [hv2] at hv'
    exact (Option.some_inj.mp hv') ▸ le2

/-- C1 witness: concrete stale invocations of both apply operations, and a
concrete sequence growth across a subsequent in-order apply. -/
theorem C1_witness :
    (workspace_event okOracle staleState .TASK_PROGRESS "t" 9 (some 3)
      .PDF_EXTRACTION [] none none 0 =
      ⟨some ⟨none, false, false⟩, staleState.store,
        fun t => if t = "t" then staleState.seqMap "t" + 1 else staleState.seqMap t,
        []⟩) ∧
    (page_event okOracle staleState .TASK_PROGRESS "t" 9 (some 3)
      .PDF_EXTRACTION none none none [] none 0 =
      ⟨some ⟨none, false, false⟩, staleState.store,
        fun t => if t = "t" then staleState.seqMap "t" + 1 else staleState.seqMap t,
        []⟩) ∧
    (growState.store "t" = some growRow ∧
      (growOps.foldl (applyOp okOracle) growState).store "t" = some grownRow ∧
      (1 : Int) ≤ 2) :=
  ⟨C1_stale_apply_noop_and_seq_monotone.1 okOracle staleState .TASK_PROGRESS "t"
      9 (some 3) .PDF_EXTRACTION [] none none 0 staleRow 10 "running"
      (by decide) (by decide) (by decide) (by decide),
   C1_stale_apply_noop_and_seq_monotone.2.1 okOracle staleState .TASK_PROGRESS
      "t" 9 (some 3) .PDF_EXTRACTION none none none [] none 0 staleRow 10
      "running" (by decide) (by decide) (by decide) (by decide),
   by decide,
   by decide,
   C1_stale_apply_noop_and_seq_monotone.2.2 okOracle growOps growState "t"
      growRow grownRow 1 2 (by decide) (by decide) (by decide) (by decide)⟩

/-- C2: the claim says the first event for a `task_id` with no existing
`JobStatus` row creates the row and then, after commit, builds and publishes
the envelope with `persisted = true`. The code does create the row (visible in
the store afterwards), but because `get_or_create` seeds the new row's `seq`
with the incoming sequence and the stale gate `seq <= job_status.seq` is
checked without consulting the `created` flag, the gate fires on the row that
was just created: the call returns `persisted = false`, `dispatched = false`,
no envelope, and publishes nothing. This theorem evaluates the code at the
failing input. -/
theorem C2_first_event_swallowed :
    (workspace_event okOracle ⟨fun _ => none, fun _ => 0⟩ .TASK_STARTED "42" 9
      (some 3) .PDF_EXTRACTION [] none none 0).result =
      some ⟨none, false, false⟩ ∧
    (workspace_event okOracle ⟨fun _ => none, fun _ => 0⟩ .TASK_STARTED "42" 9
      (some 3) .PDF_EXTRACTION [] none none 0).store "42" =
      some ⟨.RUNNING, "running", 0, some 1, [], 9, some 3⟩ ∧
    (workspace_event okOracle ⟨fun _ => none, fun _ => 0⟩ .TASK_STARTED "42" 9
      (some 3) .PDF_EXTRACTION [] none none 0).published = [] := by
  refine ⟨rfl, by decide, rfl⟩

/-- C3: the claim says `from_dict (to_dict e) = e` for every envelope,
including non-empty `meta`. The code's `from_dict` never reads the `meta` key,
so the round-trip resets `meta` to the empty dict: it is lossless for every
field except `meta` and therefore fails on any envelope with non-empty meta.
This theorem evaluates the round-trip at such an envelope. -/
theorem C3_roundtrip_drops_meta :
    EventEnvelope.from_dict (EventEnvelope.to_dict metaEnvelope) =
      some { metaEnvelope with meta := [] } ∧
    EventEnvelope.from_dict (EventEnvelope.to_dict metaEnvelope) ≠
      some metaEnvelope ∧
    metaEnvelope.meta ≠ [] := by
  refine ⟨by decide, by decide, by decide⟩

/-- C4 counterexample: with `max_retries = 3` and a transport that throws on
every attempt, the claim says the failed `PublishResult` carries
`retry_count = max_retries = 3`; the code returns `retry_count = 4`
(`retry_count` is incremented once more before the final return). -/
theorem C4_counterexample :
    (publish_event_async true throwingTransport (fun _ => 0) .TASK_PROGRESS "t"
      .SYNC "p" 7 none none none 3 0).result.retry_count = 4 ∧
    (4 : Nat) ≠ 3 ∧
    (publish_event_async true throwingTransport (fun _ => 0) .TASK_PROGRESS "t"
      .SYNC "p" 7 none none none 3 0).result.success = false := by
  refine ⟨by decide, by decide, by decide⟩

/-- C4 (amended): if the fan-out transport throws on every attempt (and the
permission-filtered group set is non-empty, so the transport is reached),
`publish_event_async` performs the initial attempt plus exactly `max_retries`
retries — `max_retries + 1` fan-out attempts in total — sleeping
`min(2^k + k*0.1, 10.0)` seconds before the k-th retry (k = 1..max_retries),
then returns `success = false` with the last error and `retry_count` equal to
`max_retries + 1` (one more than the number of retries, since the counter is
incremented after the final failed attempt). -/
theorem C4_retry_exhaustion (transport : Nat → Option String) (seqMap : SeqMap)
    (et : EventType) (task : String) (jt : JobType) (proj : String) (uid : Int)
    (page wsid : Option String) (meta : Option Meta) (max_retries : Nat)
    (ts : Int) (hthrow : ∀ i, transport i ≠ none)
    (hgroups : filter_accessible_groups uid
      (compute_groups_for_event et.value task proj uid wsid page) ≠ []) :
    (publish_event_async true transport seqMap et task jt proj uid page wsid
      meta max_retries ts).result =
      ⟨false, max_retries + 1, transport max_retries⟩ ∧
    (publish_event_async true transport seqMap et task jt proj uid page wsid
      meta max_retries ts).delays =
      (List.range' 1 max_retries).map backoffDelay ∧
    (publish_event_async true transport seqMap et task jt proj uid page wsid
      meta max_retries ts).attempts = List.replicate (max_retries + 1)
      (publish_event_async true transport seqMap et task jt proj uid page wsid
        meta max_retries ts).envelope := by
  have hcnt : publish_envelope_count true
      (bridgeEnvelope seqMap et task jt proj uid page meta ts) wsid ≠ 0 := by
    simp only [publish_envelope_count, bridgeEnvelope, mkEnvelope, if_true]
    intro h
    exact hgroups (List.length_eq_zero.mp h)
  have hl := publish_loop_throw
    (bridgeEnvelope seqMap et task jt proj uid page meta ts)
    (publish_envelope_count true
      (bridgeEnvelope seqMap et task jt proj uid page meta ts) wsid)
    (noGroupsWarning et task) transport max_retries hcnt hthrow
    (max_retries + 1) 0 (Nat.zero_le _) (by omega)
  refine ⟨?_, ?_, ?_⟩ <;>
    simp only [publish_event_async, get_next_sequence, hl]
  all_goals simp

/-- C4 witness: a concrete always-throwing transport with `max_retries = 2`. -/
theorem C4_witness :
    filter_accessible_groups 7 (compute_groups_for_event
      EventType.TASK_PROGRESS.value "t" "p" 7 none none) ≠ [] ∧
    (publish_event_async true throwingTransport (fun _ => 0) .TASK_PROGRESS "t"
      .SYNC "p" 7 none none none 2 0).result =
      ⟨false, 2 + 1, throwingTransport 2⟩ ∧
    (publish_event_async true throwingTransport (fun _ => 0) .TASK_PROGRESS "t"
      .SYNC "p" 7 none none none 2 0).delays =
      (List.range' 1 2).map backoffDelay :=
  ⟨by decide,
   (C4_retry_exhaustion throwingTransport (fun _ => 0) .TASK_PROGRESS "t" .SYNC
      "p" 7 none none none 2 0 (fun i h => Option.noConfusion h) (by decide)).1,
   (C4_retry_exhaustion throwingTransport (fun _ => 0) .TASK_PROGRESS "t" .SYNC
      "p" 7 none none none 2 0 (fun i h => Option.noConfusion h) (by decide)).2.1⟩

/-- C5: a `GroupTarget` requiring `job_access` or `page_access` that carries
no `project_id` is inaccessible to every user: `validate_group_access` returns
false for all user ids, regardless of any other permission passing. -/
theorem C5_fail_closed_without_project (u : Int) (g : GroupTarget)
    (hproj : g.project_id = none)
    (hperm : "job_access" ∈ g.permissions_required ∨
      "page_access" ∈ g.permissions_required) :
    validate_group_access u g = false := by
  apply Bool.eq_false_iff.mpr
  intro hall
  rcases hperm with h | h
  · have := List.all_eq_true.mp hall _ h
    simp [check_permission, hproj] at this
  · have := List.all_eq_true.mp hall _ h
    simp [check_permission, hproj] at this

/-- C5 witness: a concrete `job`-type group with no `project_id`, denied even
to an arbitrary user. -/
theorem C5_witness :
    orphanJobGroup.project_id = none ∧
    ("job_access" ∈ orphanJobGroup.permissions_required ∨
      "page_access" ∈ orphanJobGroup.permissions_required) ∧
    validate_group_access 7 orphanJobGroup = false :=
  ⟨rfl, Or.inl (by decide),
    C5_fail_closed_without_project 7 orphanJobGroup rfl (Or.inl (by decide))⟩

/-- C6: when `publish_envelope_async` reports zero groups — in particular
whenever the permission-filtered group set for the publish is empty (the other
source of the same outcome being an unconfigured channel layer) —
`publish_event_async` returns `success = false` with the descriptive
no-accessible-groups error on the very first loop iteration: `retry_count`
stays 0 and no backoff sleep ever happens. (For the inputs expressible here
the filtered set is never actually empty, because the always-accessible
`user_{user_id}` group is always computed; the witness therefore reaches the
zero-groups branch through the unconfigured-layer disjunct.) -/
theorem C6_zero_groups_no_retry (layer : Bool) (transport : Nat → Option String)
    (seqMap : SeqMap) (et : EventType) (task : String) (jt : JobType)
    (proj : String) (uid : Int) (page wsid : Option String) (meta : Option Meta)
    (max_retries : Nat) (ts : Int)
    (h : filter_accessible_groups uid
        (compute_groups_for_event et.value task proj uid wsid page) = [] ∨
      layer = false) :
    (publish_event_async layer transport seqMap et task jt proj uid page wsid
      meta max_retries ts).result = ⟨false, 0, some (noGroupsWarning et task)⟩ ∧
    (publish_event_async layer transport seqMap et task jt proj uid page wsid
      meta max_retries ts).delays = [] := by
  have hcnt : publish_envelope_count layer
      (bridgeEnvelope seqMap et task jt proj uid page meta ts) wsid = 0 := by
    rcases h with h | h
    · simp [publish_envelope_count, bridgeEnvelope, mkEnvelope, h]
    · simp [publish_envelope_count, h]
  have hloop : publish_loop (bridgeEnvelope seqMap et task jt proj uid page meta ts)
      (publish_envelope_count layer
        (bridgeEnvelope seqMap et task jt proj uid page meta ts) wsid)
      (noGroupsWarning et task) transport max_retries 0 (max_retries + 1) =
      ⟨⟨false, 0, some (noGroupsWarning et task)⟩, [],
        [bridgeEnvelope seqMap et task jt proj uid page meta ts]⟩ := by
    rw [hcnt]
    unfold publish_loop
    simp
  constructor <;> simp only [publish_event_async, get_next_sequence, hloop]

/-- C6 witness: a concrete publish reaching the zero-groups branch. -/
theorem C6_witness :
    (filter_accessible_groups 7 (compute_groups_for_event
        EventType.TASK_PROGRESS.value "t" "p" 7 none none) = [] ∨
      false = false) ∧
    (publish_event_async false throwingTransport (fun _ => 0) .TASK_PROGRESS
      "t" .SYNC "p" 7 none none none 3 0).result =
      ⟨false, 0, some (noGroupsWarning .TASK_PROGRESS "t")⟩ ∧
    (publish_event_async false throwingTransport (fun _ => 0) .TASK_PROGRESS
      "t" .SYNC "p" 7 none none none 3 0).delays = [] :=
  ⟨Or.inr rfl,
   (C6_zero_groups_no_retry false throwingTransport (fun _ => 0) .TASK_PROGRESS
      "t" .SYNC "p" 7 none none none 3 0 (Or.inr rfl)).1,
   (C6_zero_groups_no_retry false throwingTransport (fun _ => 0) .TASK_PROGRESS
      "t" .SYNC "p" 7 none none none 3 0 (Or.inr rfl)).2⟩

/-- C7: group resolution is deterministic (a pure function of its arguments):
for `event_type = "TASK_PROGRESS"`, `task_id = "t1"`, `project_id = "p1"`,
`user_id = 7` and no workspace or page id, `compute_groups_for_event` returns
exactly the five groups `user_7`, `project_p1`, `project_p1_user_7`, `job_t1`,
`project_p1_job_t1`, on every call. -/
theorem C7_group_composition :
    (compute_groups_for_event "TASK_PROGRESS" "t1" "p1" 7 none none).map
      GroupTarget.group_name =
    ["user_7", "project_p1", "project_p1_user_7", "job_t1",
      "project_p1_job_t1"] := by
  rfl

/-- C8 counterexample: the claim says applying `TASK_COMPLETED` (after earlier
events for the task) sets `pct` to 100. With a payload carrying no progress
value the code sets `state = SUCCESS` but derives `pct` from the payload,
which defaults to 0, not 100. -/
theorem C8_counterexample :
    (workspace_event okOracle preCompletedState .TASK_COMPLETED "t" 9 (some 3)
      .PDF_EXTRACTION [] none none 0).store "t" =
      some ⟨.SUCCESS, "success", 0, some 2, [], 9, some 3⟩ ∧
    (0 : Int) ≠ 100 := by
  refine ⟨by decide, by decide⟩

/-- C8 (amended): applying any `TASK_COMPLETED` event that passes the sequence
gate sets `JobStatus.state` to `SUCCESS`, and sets `pct` to the payload's
progress (`pipeline_progress` or `progress`) clamped to [0, 100], defaulting
to 0 when absent or non-numeric — that is, to `progressOf payload` for every
payload; in particular `pct = 100` exactly when the producer supplies progress
100, as the pipeline's workspace-completion event does
(`pipeline_progress = 100`). -/
theorem C8_completed_sets_success (oracle : EventEnvelope → String → Bool)
    (st : NotifierState) (task : String) (pid : Int) (uid : Option Int)
    (jt : JobType) (payload : Meta) (durl wsid : Option String) (now : Int)
    (r : JobStatusRow) (s : Int) (stp : String)
    (hr : st.store task = some r) (hs : r.seq = some s)
    (hle : s ≤ st.seqMap task)
    (hstep : stepOf payload JobState.SUCCESS = some stp) :
    (workspace_event oracle st .TASK_COMPLETED task pid uid jt payload durl
      wsid now).store task =
      some ⟨.SUCCESS, stp, progressOf payload, some (st.seqMap task + 1),
        metaUpdate r.meta_json payload, pid, truthyUser uid⟩ ∧
    ((workspace_event oracle st .TASK_COMPLETED task pid uid jt payload durl
      wsid now).result.map NotifyResult.persisted) = some true := by
  have hstate : map_event_to_state .TASK_COMPLETED = .SUCCESS := rfl
  have hgate : staleGate r.seq (st.seqMap task + 1) = false := by
    rw [hs]
    simp only [staleGate]
    exact decide_eq_false (by omega)
  have hstep2 : stepOf payload (map_event_to_state EventType.TASK_COMPLETED) =
      some stp := by
    rw [hstate]; exact hstep
  constructor <;>
  · simp only [workspace_event, get_next_sequence, hstep2, hstate]
    simp only [persistJobStatus, getOrCreate, hr, hgate]
    simp [hstep]

/-- C8 witness: a concrete completion after an earlier event lands on
`state = SUCCESS` with `pct = progressOf payload`; its payload carries
`pipeline_progress = 100`, so the stored `pct` is 100. -/
theorem C8_witness :
    progressOf completedPayload = 100 ∧
    (workspace_event okOracle preCompletedState .TASK_COMPLETED "t" 9 (some 3)
      .PDF_EXTRACTION completedPayload none none 0).store "t" =
      some ⟨.SUCCESS, "success", 100, some (preCompletedState.seqMap "t" + 1),
        metaUpdate preCompletedRow.meta_json completedPayload, 9,
        truthyUser (some 3)⟩ ∧
    ((workspace_event okOracle preCompletedState .TASK_COMPLETED "t" 9 (some 3)
      .PDF_EXTRACTION completedPayload none none 0).result.map
      NotifyResult.persisted) = some true :=
  ⟨by decide,
   by
     have h := (C8_completed_sets_success okOracle preCompletedState "t" 9
       (some 3) .PDF_EXTRACTION completedPayload none none 0 preCompletedRow 1
       "success" (by decide) (by decide) (by decide) (by decide)).1
     rw [show progressOf completedPayload = (100 : Int) from by decide] at h
     exact h,
   (C8_completed_sets_success okOracle preCompletedState "t" 9 (some 3)
      .PDF_EXTRACTION completedPayload none none 0 preCompletedRow 1 "success"
      (by decide) (by decide) (by decide) (by decide)).2⟩

/-- C9: `EventPublisher.workspace_event` with `groups = None` dispatches the
envelope to every group name `GroupManager.compute_groups_for_event` returns,
with no permission filtering on this path. The first conjunct proves the
dispatch list equals the full unfiltered computed list for all inputs; the
second exhibits a concrete input on which the full list differs from what the
(unused) permission-filtered variant would have allowed, so the event provably
reaches groups the filter would deny. -/
theorem C9_unfiltered_dispatch :
    (∀ (seqMap : SeqMap) (et : EventType) (task : String) (jt : JobType)
      (proj : String) (uid : Int) (page : Option String)
      (durl : Option String) (meta : Option Meta) (ts : Int),
      (publisher_workspace_event true seqMap et task jt proj uid none page durl
        meta ts).sent =
        (compute_groups_for_event et.value task proj uid none page).map
          GroupTarget.group_name) ∧
    (publisher_workspace_event true (fun _ => 0) .TASK_PROGRESS "t" .SYNC "" 5
      none none none none 0).sent ≠
      (filter_accessible_groups 5
        (compute_groups_for_event "TASK_PROGRESS" "t" "" 5 none none)).map
        GroupTarget.group_name := by
  constructor
  · intro seqMap et task jt proj uid page durl meta ts
    rfl
  · decide

/-- C10: within a single `publish_event_async` call the sequencer is consulted
exactly once, before the first delivery attempt (the task's counter advances
by exactly one and no other counter changes, whatever the transport does);
the envelope is built once with that sequence number and the given clock
reading, and every attempt — including every retry — fans out that identical
envelope. -/
theorem C10_one_seq_one_envelope (layer : Bool)
    (transport : Nat → Option String) (seqMap : SeqMap) (et : EventType)
    (task : String) (jt : JobType) (proj : String) (uid : Int)
    (page wsid : Option String) (meta : Option Meta) (max_retries : Nat)
    (ts : Int) :
    (publish_event_async layer transport seqMap et task jt proj uid page wsid
      meta max_retries ts).seqMap task = seqMap task + 1 ∧
    (∀ t, t ≠ task → (publish_event_async layer transport seqMap et task jt
      proj uid page wsid meta max_retries ts).seqMap t = seqMap t) ∧
    (publish_event_async layer transport seqMap et task jt proj uid page wsid
      meta max_retries ts).envelope.seq = seqMap task + 1 ∧
    (publish_event_async layer transport seqMap et task jt proj uid page wsid
      meta max_retries ts).envelope.ts = ts ∧
    (publish_event_async layer transport seqMap et task jt proj uid page wsid
      meta max_retries ts).attempts ≠ [] ∧
    (∀ e, e ∈ (publish_event_async layer transport seqMap et task jt proj uid
      page wsid meta max_retries ts).attempts →
      e = (publish_event_async layer transport seqMap et task jt proj uid page
        wsid meta max_retries ts).envelope) := by
  refine ⟨?_, ?_, rfl, rfl, ?_, ?_⟩
  · simp [publish_event_async, get_next_sequence]
  · intro t ht
    simp [publish_event_async, get_next_sequence, ht]
  · exact publish_loop_attempts_ne_nil _ _ _ _ _ _ _
  · intro e he
    exact publish_loop_attempts_all _ _ _ _ _ _ _ e he

/-- C10 witness: a concrete failing publish; the counter for `"t"` advances by
one, the counter for `"u"` is untouched, and the envelope in the attempt list
is the single built envelope. -/
theorem C10_witness :
    (publish_event_async true throwingTransport (fun _ => 0) .TASK_STARTED "t"
      .EXPORT "p" 4 none none none 1 7).seqMap "t" = 0 + 1 ∧
    (publish_event_async true throwingTransport (fun _ => 0) .TASK_STARTED "t"
      .EXPORT "p" 4 none none none 1 7).seqMap "u" = 0 ∧
    (publish_event_async true throwingTransport (fun _ => 0) .TASK_STARTED "t"
      .EXPORT "p" 4 none none none 1 7).envelope.seq = 0 + 1 ∧
    (publish_event_async true throwingTransport (fun _ => 0) .TASK_STARTED "t"
      .EXPORT "p" 4 none none none 1 7).envelope.ts = 7 ∧
    (publish_event_async true throwingTransport (fun _ => 0) .TASK_STARTED "t"
      .EXPORT "p" 4 none none none 1 7).attempts ≠ [] ∧
    bridgeEnvelope (fun _ => 0) .TASK_STARTED "t" .EXPORT "p" 4 none none 7 =
      (publish_event_async true throwingTransport (fun _ => 0) .TASK_STARTED "t"
        .EXPORT "p" 4 none none none 1 7).envelope :=
  ⟨(C10_one_seq_one_envelope true throwingTransport (fun _ => 0) .TASK_STARTED
      "t" .EXPORT "p" 4 none none none 1 7).1,
   (C10_one_seq_one_envelope true throwingTransport (fun _ => 0) .TASK_STARTED
      "t" .EXPORT "p" 4 none none none 1 7).2.1 "u" (by decide),
   (C10_one_seq_one_envelope true throwingTransport (fun _ => 0) .TASK_STARTED
      "t" .EXPORT "p" 4 none none none 1 7).2.2.1,
   (C10_one_seq_one_envelope true throwingTransport (fun _ => 0) .TASK_STARTED
      "t" .EXPORT "p" 4 none none none 1 7).2.2.2.1,
   (C10_one_seq_one_envelope true throwingTransport (fun _ => 0) .TASK_STARTED
      "t" .EXPORT "p" 4 none none none 1 7).2.2.2.2.1,
   (C10_one_seq_one_envelope true throwingTransport (fun _ => 0) .TASK_STARTED
      "t" .EXPORT "p" 4 none none none 1 7).2.2.2.2.2
      (bridgeEnvelope (fun _ => 0) .TASK_STARTED "t" .EXPORT "p" 4 none none 7)
      (by decide)⟩

end PolyEd
